import Mathlib

/-!
Shallow embedding of the panda maze game (`src/components/PandaGame.tsx`):
data model, level generation, per-tick simulation, key handling and the
session state machine, together with theorems checking the specification's
claims against these definitions.

Coordinates are rationals (the cell height `600 / 11` is not an integer);
score and health are integers; counters are naturals; the held-key set is a
`Finset String`.  Array indexing that can go out of range in the source is
modelled with `Option`.
-/

structure Position where
  x : ℚ
  y : ℚ
deriving DecidableEq, Repr

inductive FoodType where
  | good
  | bad
deriving DecidableEq, Repr

structure FoodItem where
  id : String
  type : FoodType
  emoji : String
  position : Position
  points : ℤ
deriving DecidableEq, Repr

structure Wall where
  id : String
  position : Position
  width : ℚ
  height : ℚ
deriving DecidableEq, Repr

inductive GameStatus where
  | menu
  | playing
  | gameOver
  | levelComplete
  | gameWon
deriving DecidableEq, Repr

structure GameState where
  panda : Position
  foods : List FoodItem
  walls : List Wall
  score : ℤ
  health : ℤ
  level : ℤ
  gameStatus : GameStatus
  keysPressed : Finset String
  goodFoodCollected : ℕ
  totalGoodFood : ℕ
  hasReachedEnd : Bool
deriving DecidableEq

def GAME_WIDTH : ℚ := 800
def GAME_HEIGHT : ℚ := 600
def PANDA_SIZE : ℚ := 30
def FOOD_SIZE : ℚ := 25
def PANDA_SPEED : ℚ := 4

def GOOD_FOODS : List (String × ℤ) :=
  [("🎋", 10), ("🍎", 15), ("🍇", 12), ("🥕", 8), ("🥬", 6)]

def BAD_FOODS : List (String × ℤ) :=
  [("🍔", -20), ("🍕", -15), ("🍭", -10), ("🍟", -12), ("🍩", -18)]

/-- A designated item cell `{row, col}` in a maze layout. -/
structure CellRef where
  row : ℤ
  col : ℤ
deriving DecidableEq, Repr

structure MazeData where
  layout : List String
  goodFoodPositions : List CellRef
  badFoodPositions : List CellRef
deriving DecidableEq, Repr

def MAZE_LAYOUTS : List MazeData :=
  [ { layout :=
        [ "####################",
          "#S.....#...........#",
          "#.####.#.#########.#",
          "#....#...#.......#.#",
          "####.#####.#####.#.#",
          "#..........#...#...#",
          "#.########.#.#.###.#",
          "#.#......#...#.....#",
          "#.#.####.#########.#",
          "#...#..............E",
          "####################" ],
      goodFoodPositions :=
        [⟨1, 2⟩, ⟨1, 4⟩, ⟨3, 2⟩, ⟨5, 2⟩, ⟨7, 3⟩, ⟨9, 4⟩],
      badFoodPositions :=
        [⟨1, 12⟩, ⟨3, 15⟩, ⟨7, 17⟩] },
    { layout :=
        [ "####################",
          "#S.................#",
          "#.################.#",
          "#................#.#",
          "################.#.#",
          "#................#.#",
          "#.################.#",
          "#..................#",
          "##################.#",
          "#..................E",
          "####################" ],
      goodFoodPositions :=
        [⟨1, 3⟩, ⟨1, 8⟩, ⟨3, 5⟩, ⟨3, 12⟩, ⟨5, 3⟩, ⟨7, 8⟩, ⟨9, 5⟩, ⟨9, 15⟩],
      badFoodPositions :=
        [⟨1, 15⟩, ⟨5, 15⟩, ⟨7, 3⟩] },
    { layout :=
        [ "####################",
          "#S.......#.........#",
          "#.#######.#.#####.##",
          "#.......#.#.....#..#",
          "#######.#.#####.##.#",
          "#.......#.......#..#",
          "#.#######.#######.##",
          "#.......#.........##",
          "#.#####.###########E",
          "#...................#",
          "####################" ],
      goodFoodPositions :=
        [⟨1, 3⟩, ⟨1, 6⟩, ⟨3, 3⟩, ⟨3, 13⟩, ⟨5, 3⟩, ⟨5, 13⟩,
         ⟨7, 3⟩, ⟨9, 3⟩, ⟨9, 8⟩, ⟨9, 15⟩],
      badFoodPositions :=
        [⟨1, 15⟩, ⟨3, 8⟩, ⟨7, 12⟩, ⟨9, 12⟩] } ]

/-- `checkCollision(pos1, pos2, size1, size2)` from the source: strict
axis-aligned overlap test, where `size2` is used for both extents of the
second box. -/
def checkCollision (pos1 pos2 : Position) (size1 size2 : ℚ) : Bool :=
  decide (pos1.x < pos2.x + size2) &&
  decide (pos1.x + size1 > pos2.x) &&
  decide (pos1.y < pos2.y + size2) &&
  decide (pos1.y + size1 > pos2.y)

/-- `isValidFoodPosition` from `generateMaze`: a designated cell is valid
when it is in range and holds `'.'`, `'S'` or `'E'`. -/
def isValidFoodPosition (maze : List String) (row col : ℤ) : Bool :=
  if row < 0 || decide ((maze.length : ℤ) ≤ row) || col < 0 ||
      decide (((maze.headD "").length : ℤ) ≤ col) then
    false
  else
    let cell := (maze.getD row.toNat "").data.getD col.toNat ' '
    cell == '.' || cell == 'S' || cell == 'E'

/-- Walls generated from the `'#'` cells of the layout. -/
def mazeWalls (maze : List String) (cellWidth cellHeight : ℚ) : List Wall :=
  (maze.enum.map (fun rowPair =>
    rowPair.2.data.enum.filterMap (fun cellPair =>
      if cellPair.2 = '#' then
        some { id := "wall-" ++ toString rowPair.1 ++ "-" ++ toString cellPair.1,
               position := { x := (cellPair.1 : ℚ) * cellWidth,
                             y := (rowPair.1 : ℚ) * cellHeight },
               width := cellWidth,
               height := cellHeight }
      else none))).flatten

/-- Start position: centre of the `'S'` cell minus half the panda size
(last occurrence wins, as in the source's `forEach` assignment). -/
def mazeStart (maze : List String) (cellWidth cellHeight : ℚ) : Position :=
  maze.enum.foldl (fun acc rowPair =>
    rowPair.2.data.enum.foldl (fun acc2 cellPair =>
      if cellPair.2 = 'S' then
        { x := (cellPair.1 : ℚ) * cellWidth + cellWidth / 2 - PANDA_SIZE / 2,
          y := (rowPair.1 : ℚ) * cellHeight + cellHeight / 2 - PANDA_SIZE / 2 }
      else acc2) acc) { x := 0, y := 0 }

/-- End position: top-left corner of the `'E'` cell. -/
def mazeEnd (maze : List String) (cellWidth cellHeight : ℚ) : Position :=
  maze.enum.foldl (fun acc rowPair =>
    rowPair.2.data.enum.foldl (fun acc2 cellPair =>
      if cellPair.2 = 'E' then
        { x := (cellPair.1 : ℚ) * cellWidth, y := (rowPair.1 : ℚ) * cellHeight }
      else acc2) acc) { x := 0, y := 0 }

/-- Centre of a designated cell, where a collectible is placed. -/
def foodCellCenter (cellWidth cellHeight : ℚ) (pos : CellRef) : Position :=
  { x := (pos.col : ℚ) * cellWidth + cellWidth / 2 - FOOD_SIZE / 2,
    y := (pos.row : ℚ) * cellHeight + cellHeight / 2 - FOOD_SIZE / 2 }

/-- Place the collectibles of one designator list: each valid cell gets an
item cycling through the palette by index mod palette size; wall cells are
skipped. -/
def placeFoods (maze : List String) (cellWidth cellHeight : ℚ) (ty : FoodType)
    (idBase : String) (palette : List (String × ℤ))
    (positions : List CellRef) : List FoodItem :=
  positions.enum.filterMap (fun posPair =>
    if isValidFoodPosition maze posPair.2.row posPair.2.col then
      let fd := palette.getD (posPair.1 % palette.length) ("", 0)
      some { id := idBase ++ toString posPair.1,
             type := ty,
             emoji := fd.1,
             position := foodCellCenter cellWidth cellHeight posPair.2,
             points := fd.2 }
    else none)

structure LevelData where
  walls : List Wall
  foods : List FoodItem
  startPos : Position
  endPos : Position
  goodFoodCount : ℕ
deriving DecidableEq

/-- Body of `generateMaze` for a fixed layout: walls, foods, start/end
positions, and the count of good foods actually placed (post-skip). -/
def generateMazeData (m : MazeData) : LevelData :=
  let maze := m.layout
  let cellWidth := GAME_WIDTH / ((maze.headD "").length : ℚ)
  let cellHeight := GAME_HEIGHT / (maze.length : ℚ)
  let foods :=
    placeFoods maze cellWidth cellHeight FoodType.good "good-food-" GOOD_FOODS
      m.goodFoodPositions ++
    placeFoods maze cellWidth cellHeight FoodType.bad "bad-food-" BAD_FOODS
      m.badFoodPositions
  { walls := mazeWalls maze cellWidth cellHeight,
    foods := foods,
    startPos := mazeStart maze cellWidth cellHeight,
    endPos := mazeEnd maze cellWidth cellHeight,
    goodFoodCount :=
      (foods.filter (fun food => decide (food.type = FoodType.good))).length }

/-- `generateMaze(level)`: clamps the layout index with
`min (level - 1) (MAZE_LAYOUTS.length - 1)`; `none` models the JavaScript
crash on a negative index. -/
def generateMaze (level : ℤ) : Option LevelData :=
  let mazeIndex : ℤ := min (level - 1) ((MAZE_LAYOUTS.length : ℤ) - 1)
  if h : 0 ≤ mazeIndex ∧ mazeIndex.toNat < MAZE_LAYOUTS.length then
    some (generateMazeData (MAZE_LAYOUTS.get ⟨mazeIndex.toNat, h.2⟩))
  else none

/-- One axis-separated movement attempt of `updateGame`: the candidate
position is accepted unless it collides with some wall, where the per-wall
test passes `wall.width` as the second size argument. -/
def tryMove (walls : List Wall) (p test : Position) : Position :=
  if walls.any (fun wall => checkCollision test wall.position PANDA_SIZE wall.width) then
    p
  else test

/-- The four sequential direction checks of `updateGame`, each clamped to
the arena bounds before the wall test. -/
def movePanda (keys : Finset String) (walls : List Wall) (p0 : Position) : Position :=
  let p1 :=
    if "arrowup" ∈ keys ∨ "w" ∈ keys then
      tryMove walls p0 { p0 with y := max 0 (p0.y - PANDA_SPEED) }
    else p0
  let p2 :=
    if "arrowdown" ∈ keys ∨ "s" ∈ keys then
      tryMove walls p1 { p1 with y := min (GAME_HEIGHT - PANDA_SIZE) (p1.y + PANDA_SPEED) }
    else p1
  let p3 :=
    if "arrowleft" ∈ keys ∨ "a" ∈ keys then
      tryMove walls p2 { p2 with x := max 0 (p2.x - PANDA_SPEED) }
    else p2
  if "arrowright" ∈ keys ∨ "d" ∈ keys then
    tryMove walls p3 { p3 with x := min (GAME_WIDTH - PANDA_SIZE) (p3.x + PANDA_SPEED) }
  else p3

structure EatResult where
  foods : List FoodItem
  score : ℤ
  health : ℤ
  collected : ℕ
deriving DecidableEq

/-- The food-collision filter of `updateGame`: each overlapped item is
removed, its points added to the score; a good item heals 5 capped at 100
and bumps the collected count, a bad item costs 15 floored at 0. -/
def eatFoods (panda : Position) : List FoodItem → ℤ → ℤ → ℕ → EatResult
  | [], score, health, collected => ⟨[], score, health, collected⟩
  | food :: rest, score, health, collected =>
    if checkCollision panda food.position PANDA_SIZE FOOD_SIZE then
      if food.type = FoodType.good then
        eatFoods panda rest (score + food.points) (min 100 (health + 5)) (collected + 1)
      else
        eatFoods panda rest (score + food.points) (max 0 (health - 15)) collected
    else
      let r := eatFoods panda rest score health collected
      ⟨food :: r.foods, r.score, r.health, r.collected⟩

/-- One simulation tick (`updateGame`): a no-op unless the status is
`playing`; otherwise move, resolve pickups, and evaluate the terminal
conditions in the source's order. -/
def updateGame (s : GameState) : GameState :=
  if s.gameStatus = GameStatus.playing then
    let newPanda := movePanda s.keysPressed s.walls s.panda
    let r := eatFoods newPanda s.foods s.score s.health s.goodFoodCollected
    let reachedEnd : Bool := decide (GAME_WIDTH - PANDA_SIZE - 10 ≤ newPanda.x)
    let newGameStatus :=
      if r.health ≤ 0 then GameStatus.gameOver
      else if reachedEnd = true ∧ r.collected = s.totalGoodFood then
        GameStatus.levelComplete
      else if reachedEnd = true ∧ r.collected < s.totalGoodFood then
        GameStatus.gameOver
      else s.gameStatus
    { s with panda := newPanda, foods := r.foods, score := r.score,
             health := r.health, goodFoodCollected := r.collected,
             hasReachedEnd := reachedEnd, gameStatus := newGameStatus }
  else s

def movementKeys : List String :=
  ["ArrowUp", "ArrowDown", "ArrowLeft", "ArrowRight",
   "w", "a", "s", "d", "W", "A", "S", "D"]

def toLowerStr (str : String) : String := ⟨str.data.map Char.toLower⟩

/-- `handleKeyDown`: a recognized movement key is added lowercased to the
held set; other keys are ignored. -/
def handleKeyDown (key : String) (s : GameState) : GameState :=
  if key ∈ movementKeys then
    { s with keysPressed := insert (toLowerStr key) s.keysPressed }
  else s

/-- `handleKeyUp`: the key is removed lowercased from the held set,
unconditionally. -/
def handleKeyUp (key : String) (s : GameState) : GameState :=
  { s with keysPressed := s.keysPressed.erase (toLowerStr key) }

/-- The registered key-down listener: it invokes `handleKeyDown` only while
the status is `playing`. -/
def handleKeyDownWrapper (key : String) (s : GameState) : GameState :=
  if s.gameStatus = GameStatus.playing then handleKeyDown key s else s

/-- The registered key-up listener: it invokes `handleKeyUp` only while the
status is `playing`. -/
def handleKeyUpWrapper (key : String) (s : GameState) : GameState :=
  if s.gameStatus = GameStatus.playing then handleKeyUp key s else s

/-- `initializeLevel`: generate the level and install walls, foods, start
position, reset the collected count and the reached-end flag, set the
status to `playing`. -/
def initLevel (level : ℤ) (s : GameState) : Option GameState :=
  (generateMaze level).map (fun d =>
    { s with walls := d.walls, foods := d.foods, panda := d.startPos,
             gameStatus := GameStatus.playing, goodFoodCollected := 0,
             totalGoodFood := d.goodFoodCount, hasReachedEnd := false })

/-- `startGame`: reset score, health and level, then initialize level 1. -/
def startGame (s : GameState) : Option GameState :=
  initLevel 1 { s with score := 0, health := 100, level := 1,
                       gameStatus := GameStatus.playing }

/-- `nextLevel`: past the last defined level go to `gameWon`; otherwise
bump the level index and initialize the new level. -/
def nextLevel (s : GameState) : Option GameState :=
  if (MAZE_LAYOUTS.length : ℤ) < s.level + 1 then
    some { s with gameStatus := GameStatus.gameWon }
  else
    initLevel (s.level + 1) { s with level := s.level + 1 }

/-- `restartGame` just calls `startGame`. -/
def restartGame (s : GameState) : Option GameState :=
  startGame s

/-- The "Main Menu" button handler: set the status back to `menu`. -/
def goToMenu (s : GameState) : GameState :=
  { s with gameStatus := GameStatus.menu }

/-- The initial `useState` value. -/
def initialState : GameState :=
  { panda := { x := 0, y := 0 }, foods := [], walls := [], score := 0,
    health := 100, level := 1, gameStatus := GameStatus.menu,
    keysPressed := ∅, goodFoodCollected := 0, totalGoodFood := 0,
    hasReachedEnd := false }

/-- States reachable through the component's event handlers: the initial
state, `startGame` (from the menu / game-over / game-won screens, also as
`restartGame`), `nextLevel` (from the level-complete screen), the tick,
the two registered key listeners, and the "Main Menu" buttons. -/
inductive Reachable : GameState → Prop where
  | init : Reachable initialState
  | start {s s' : GameState} : Reachable s →
      (s.gameStatus = GameStatus.menu ∨ s.gameStatus = GameStatus.gameOver ∨
        s.gameStatus = GameStatus.gameWon) →
      startGame s = some s' → Reachable s'
  | next {s s' : GameState} : Reachable s →
      s.gameStatus = GameStatus.levelComplete →
      nextLevel s = some s' → Reachable s'
  | tick {s : GameState} : Reachable s → Reachable (updateGame s)
  | keyDown {s : GameState} (key : String) : Reachable s →
      Reachable (handleKeyDownWrapper key s)
  | keyUp {s : GameState} (key : String) : Reachable s →
      Reachable (handleKeyUpWrapper key s)
  | menu {s : GameState} : Reachable s →
      (s.gameStatus = GameStatus.gameOver ∨ s.gameStatus = GameStatus.gameWon) →
      Reachable (goToMenu s)

set_option maxRecDepth 10000

attribute [local semireducible] Rat.add Rat.sub Rat.mul Rat.inv

/-- Number of good-type items in a food list. -/
def countGood (foods : List FoodItem) : ℕ :=
  (foods.filter (fun food => decide (food.type = FoodType.good))).length

/-- The state produced by pressing "Start Adventure" in the initial menu. -/
def startState : GameState := (startGame initialState).getD initialState

/-- A playing state with no foods and no held keys, used as a witness. -/
def playState : GameState := { initialState with gameStatus := GameStatus.playing }

/-- A non-playing (menu) state holding the key "w", showing that the
registered key-up listener does not remove keys outside `playing`. -/
def keyUpState : GameState := { initialState with keysPressed := {"w"} }

/-- A state already on the last defined level, used as a witness input. -/
def lastLevelState : GameState := { initialState with level := 3 }

/-- The first maze layout, used as a witness. -/
def layout1 : MazeData :=
  MAZE_LAYOUTS.getD 0 { layout := [], goodFoodPositions := [], badFoodPositions := [] }

/-- Actual-rectangle overlap of the character square with a wall, using the
wall's own width *and* height. -/
def overlapsRect (p : Position) (size : ℚ) (w : Wall) : Prop :=
  p.x < w.position.x + w.width ∧ p.x + size > w.position.x ∧
    p.y < w.position.y + w.height ∧ p.y + size > w.position.y

/-- The reachable state after starting the game, pressing "w" and letting
three ticks run: the panda has moved up from the start cell to
`y = 603/11`, still outside the top border wall. -/
def c1State : GameState :=
  updateGame (updateGame (updateGame (handleKeyDownWrapper "w" startState)))

theorem countGood_nil : countGood [] = 0 := rfl

theorem countGood_cons (food : FoodItem) (rest : List FoodItem) :
    countGood (food :: rest) =
      (if food.type = FoodType.good then 1 else 0) + countGood rest := by
  by_cases h : food.type = FoodType.good
  · simp [countGood, List.filter_cons, h]
    omega
  · simp [countGood, List.filter_cons, h]

theorem generateMazeData_goodFoodCount (m : MazeData) :
    (generateMazeData m).goodFoodCount = countGood (generateMazeData m).foods := rfl

theorem eatFoods_health_bounds (panda : Position) (foods : List FoodItem)
    (score health : ℤ) (collected : ℕ) (h0 : 0 ≤ health) (h100 : health ≤ 100) :
    0 ≤ (eatFoods panda foods score health collected).health ∧
      (eatFoods panda foods score health collected).health ≤ 100 := by
  induction foods generalizing score health collected with
  | nil => exact ⟨h0, h100⟩
  | cons food rest ih =>
    rw [eatFoods]
    by_cases hc : checkCollision panda food.position PANDA_SIZE FOOD_SIZE
    · rw [if_pos hc]
      by_cases hg : food.type = FoodType.good
      · rw [if_pos hg]
        exact ih _ _ _ (by omega) (by omega)
      · rw [if_neg hg]
        exact ih _ _ _ (by omega) (by omega)
    · rw [if_neg hc]
      exact ih _ _ _ h0 h100

theorem eatFoods_collected_good (panda : Position) (foods : List FoodItem)
    (score health : ℤ) (collected : ℕ) :
    (eatFoods panda foods score health collected).collected +
        countGood (eatFoods panda foods score health collected).foods =
      collected + countGood foods := by
  induction foods generalizing score health collected with
  | nil => simp [eatFoods, countGood_nil]
  | cons food rest ih =>
    rw [eatFoods, countGood_cons]
    by_cases hc : checkCollision panda food.position PANDA_SIZE FOOD_SIZE
    · rw [if_pos hc]
      by_cases hg : food.type = FoodType.good
      · rw [if_pos hg, if_pos hg]
        have h := ih (score + food.points) (min 100 (health + 5)) (collected + 1)
        omega
      · rw [if_neg hg, if_neg hg]
        have h := ih (score + food.points) (max 0 (health - 15)) collected
        omega
    · rw [if_neg hc]
      have h := ih score health collected
      dsimp only
      simp only [countGood_cons]
      omega

theorem eatFoods_no_hit (panda : Position) (foods : List FoodItem)
    (score health : ℤ) (collected : ℕ)
    (hnone : ∀ f ∈ foods, checkCollision panda f.position PANDA_SIZE FOOD_SIZE = false) :
    eatFoods panda foods score health collected = ⟨foods, score, health, collected⟩ := by
  induction foods with
  | nil => rfl
  | cons food rest ih =>
    rw [eatFoods, if_neg (by simp [hnone food (by simp)]),
      ih (fun f hf => hnone f (by simp [hf]))]

theorem tryMove_preserve (walls : List Wall) (p test : Position)
    (hw : ∀ w ∈ walls, checkCollision p w.position PANDA_SIZE w.width = false) :
    ∀ w ∈ walls,
      checkCollision (tryMove walls p test) w.position PANDA_SIZE w.width = false := by
  rw [tryMove]
  split
  · exact hw
  · next hfail =>
    intro w hwmem
    have := List.any_eq_true.not.mp hfail
    push_neg at this
    simpa using this w hwmem

theorem moveStep_preserve (walls : List Wall) (cond : Prop) [Decidable cond]
    (p test : Position)
    (hw : ∀ w ∈ walls, checkCollision p w.position PANDA_SIZE w.width = false) :
    ∀ w ∈ walls,
      checkCollision (if cond then tryMove walls p test else p) w.position
        PANDA_SIZE w.width = false := by
  split
  · exact tryMove_preserve _ _ _ hw
  · exact hw

theorem movePanda_preserve (keys : Finset String) (walls : List Wall) (p : Position)
    (hw : ∀ w ∈ walls, checkCollision p w.position PANDA_SIZE w.width = false) :
    ∀ w ∈ walls,
      checkCollision (movePanda keys walls p) w.position PANDA_SIZE w.width = false := by
  simp only [movePanda]
  apply moveStep_preserve
  apply moveStep_preserve
  apply moveStep_preserve
  apply moveStep_preserve
  exact hw

theorem movePanda_empty (walls : List Wall) (p : Position) :
    movePanda ∅ walls p = p := by
  simp [movePanda]

theorem updateGame_not_playing (s : GameState)
    (h : s.gameStatus ≠ GameStatus.playing) : updateGame s = s := by
  rw [updateGame, if_neg h]

theorem updateGame_playing (s : GameState) (h : s.gameStatus = GameStatus.playing) :
    updateGame s =
      { s with
        panda := movePanda s.keysPressed s.walls s.panda,
        foods := (eatFoods (movePanda s.keysPressed s.walls s.panda) s.foods
          s.score s.health s.goodFoodCollected).foods,
        score := (eatFoods (movePanda s.keysPressed s.walls s.panda) s.foods
          s.score s.health s.goodFoodCollected).score,
        health := (eatFoods (movePanda s.keysPressed s.walls s.panda) s.foods
          s.score s.health s.goodFoodCollected).health,
        goodFoodCollected := (eatFoods (movePanda s.keysPressed s.walls s.panda) s.foods
          s.score s.health s.goodFoodCollected).collected,
        hasReachedEnd :=
          decide (GAME_WIDTH - PANDA_SIZE - 10 ≤
            (movePanda s.keysPressed s.walls s.panda).x),
        gameStatus :=
          if (eatFoods (movePanda s.keysPressed s.walls s.panda) s.foods
              s.score s.health s.goodFoodCollected).health ≤ 0 then
            GameStatus.gameOver
          else if decide (GAME_WIDTH - PANDA_SIZE - 10 ≤
                (movePanda s.keysPressed s.walls s.panda).x) = true ∧
              (eatFoods (movePanda s.keysPressed s.walls s.panda) s.foods
                s.score s.health s.goodFoodCollected).collected = s.totalGoodFood then
            GameStatus.levelComplete
          else if decide (GAME_WIDTH - PANDA_SIZE - 10 ≤
                (movePanda s.keysPressed s.walls s.panda).x) = true ∧
              (eatFoods (movePanda s.keysPressed s.walls s.panda) s.foods
                s.score s.health s.goodFoodCollected).collected < s.totalGoodFood then
            GameStatus.gameOver
          else s.gameStatus } := by
  rw [updateGame, if_pos h]

theorem initLevel_eq_some {level : ℤ} {s s' : GameState}
    (h : initLevel level s = some s') :
    ∃ d, generateMaze level = some d ∧
      s' = { s with walls := d.walls, foods := d.foods, panda := d.startPos,
                    gameStatus := GameStatus.playing, goodFoodCollected := 0,
                    totalGoodFood := d.goodFoodCount, hasReachedEnd := false } := by
  rw [initLevel] at h
  rcases hg : generateMaze level with _ | d
  · rw [hg] at h
    simp at h
  · rw [hg] at h
    simp only [Option.map_some', Option.some.injEq] at h
    exact ⟨d, rfl, h.symm⟩

theorem startGame_eq_some {s s' : GameState} (h : startGame s = some s') :
    ∃ d, generateMaze 1 = some d ∧
      s' = { s with score := 0, health := 100, level := 1,
                    walls := d.walls, foods := d.foods, panda := d.startPos,
                    gameStatus := GameStatus.playing, goodFoodCollected := 0,
                    totalGoodFood := d.goodFoodCount, hasReachedEnd := false } := by
  rw [startGame] at h
  obtain ⟨d, hd, hs⟩ := initLevel_eq_some h
  exact ⟨d, hd, hs⟩

theorem nextLevel_eq_some {s s' : GameState} (h : nextLevel s = some s') :
    ((MAZE_LAYOUTS.length : ℤ) < s.level + 1 ∧
      s' = { s with gameStatus := GameStatus.gameWon }) ∨
    (s.level + 1 ≤ (MAZE_LAYOUTS.length : ℤ) ∧
      ∃ d, generateMaze (s.level + 1) = some d ∧
        s' = { s with level := s.level + 1,
                      walls := d.walls, foods := d.foods, panda := d.startPos,
                      gameStatus := GameStatus.playing, goodFoodCollected := 0,
                      totalGoodFood := d.goodFoodCount, hasReachedEnd := false }) := by
  rw [nextLevel] at h
  by_cases hl : (MAZE_LAYOUTS.length : ℤ) < s.level + 1
  · rw [if_pos hl] at h
    exact Or.inl ⟨hl, (Option.some.injEq _ _ ▸ h).symm⟩
  · rw [if_neg hl] at h
    obtain ⟨d, hd, hs⟩ := initLevel_eq_some h
    exact Or.inr ⟨by omega, d, hd, hs⟩

theorem generateMaze_count {level : ℤ} {d : LevelData}
    (h : generateMaze level = some d) : d.goodFoodCount = countGood d.foods := by
  rw [generateMaze] at h
  split at h
  · cases h
    exact generateMazeData_goodFoodCount _
  · cases h

/-- Invariant maintained by every reachable state: health stays within
`[0, 100]`, and the collected-good count plus the good items still active
equals the level's total good count. -/
theorem reachable_inv (s : GameState) (h : Reachable s) :
    (0 ≤ s.health ∧ s.health ≤ 100) ∧
      s.goodFoodCollected + countGood s.foods = s.totalGoodFood := by
  induction h with
  | init =>
    refine ⟨⟨?_, ?_⟩, ?_⟩ <;> simp [initialState, countGood_nil]
  | start hr hcond hsome ih =>
    obtain ⟨d, hd, rfl⟩ := startGame_eq_some hsome
    have hcount := generateMaze_count hd
    refine ⟨⟨?_, ?_⟩, ?_⟩ <;> dsimp only <;> omega
  | next hr hst hsome ih =>
    rcases nextLevel_eq_some hsome with ⟨hl, rfl⟩ | ⟨hl, d, hd, rfl⟩
    · exact ih
    · have hcount := generateMaze_count hd
      obtain ⟨⟨ih1, ih2⟩, ih3⟩ := ih
      refine ⟨⟨?_, ?_⟩, ?_⟩ <;> dsimp only <;> omega
  | tick hr ih =>
    rename_i s
    by_cases hp : s.gameStatus = GameStatus.playing
    · rw [updateGame_playing s hp]
      obtain ⟨⟨ih1, ih2⟩, ih3⟩ := ih
      have hb := eatFoods_health_bounds (movePanda s.keysPressed s.walls s.panda)
        s.foods s.score s.health s.goodFoodCollected ih1 ih2
      have hc := eatFoods_collected_good (movePanda s.keysPressed s.walls s.panda)
        s.foods s.score s.health s.goodFoodCollected
      refine ⟨⟨?_, ?_⟩, ?_⟩ <;> dsimp only <;> omega
    · rw [updateGame_not_playing s hp]
      exact ih
  | keyDown key hr ih =>
    rename_i s
    rw [handleKeyDownWrapper]
    split
    · rw [handleKeyDown]
      split <;> exact ih
    · exact ih
  | keyUp key hr ih =>
    rename_i s
    rw [handleKeyUpWrapper]
    split
    · exact ih
    · exact ih
  | menu hr hcond ih =>
    exact ih

theorem MAZE_LAYOUTS_length : MAZE_LAYOUTS.length = 3 := rfl

theorem generateMaze_pos_some {level : ℤ} (h : 1 ≤ level) :
    ∃ d, generateMaze level = some d := by
  rw [generateMaze]
  rw [dif_pos]
  · exact ⟨_, rfl⟩
  · simp only [MAZE_LAYOUTS_length]
    omega

theorem generateMaze_clamp {level : ℤ} (h : 3 < level) :
    generateMaze level = generateMaze 3 := by
  have hidx : min (level - 1) ((MAZE_LAYOUTS.length : ℤ) - 1) =
      min ((3 : ℤ) - 1) ((MAZE_LAYOUTS.length : ℤ) - 1) := by
    simp only [MAZE_LAYOUTS_length]
    omega
  simp only [generateMaze, hidx]


theorem startGame_initialState : startGame initialState = some startState := by
  decide

theorem reachable_startState : Reachable startState :=
  Reachable.start Reachable.init (Or.inl rfl) startGame_initialState

/-- C6: `checkCollision` returns true exactly on the strict half-open
interval intersection of the two boxes, with `size2` used for both extents
of the second box; as a Lean function it is pure by construction. -/
theorem C6_checkCollision_iff (pos1 pos2 : Position) (size1 size2 : ℚ) :
    checkCollision pos1 pos2 size1 size2 = true ↔
      (pos1.x < pos2.x + size2 ∧ pos1.x + size1 > pos2.x ∧
        pos1.y < pos2.y + size2 ∧ pos1.y + size1 > pos2.y) := by
  simp [checkCollision, and_assoc]

/-- C3: in every reachable state health lies in `[0, 100]`; the per-pickup
cap (`min 100 (health + 5)`) and floor (`max 0 (health - 15)`) preserve the
interval through every operation of the game. -/
theorem C3_health_in_range (s : GameState) (h : Reachable s) :
    0 ≤ s.health ∧ s.health ≤ 100 :=
  (reachable_inv s h).1

theorem C3_health_in_range_witness :
    0 ≤ initialState.health ∧ initialState.health ≤ 100 :=
  C3_health_in_range initialState Reachable.init

/-- C10: in every reachable state the collected-good counter plus the good
items remaining in the active food list equals `totalGoodFood`, so the
counter never exceeds the total. -/
theorem C10_collected_conservation (s : GameState) (h : Reachable s) :
    s.goodFoodCollected + countGood s.foods = s.totalGoodFood ∧
      s.goodFoodCollected ≤ s.totalGoodFood := by
  have hinv := (reachable_inv s h).2
  exact ⟨hinv, by omega⟩

theorem C10_collected_conservation_witness :
    startState.goodFoodCollected + countGood startState.foods =
        startState.totalGoodFood ∧
      startState.goodFoodCollected ≤ startState.totalGoodFood :=
  C10_collected_conservation startState reachable_startState

/-- C9: `generateMaze` succeeds for every level index `≥ 1`, and for every
level index above 3 the clamp `min (level - 1) (layouts - 1)` makes it
return exactly the level-3 result (same walls, foods, start position and
good-food count). -/
theorem C9_generateMaze_clamped (level : ℤ) (h : 1 ≤ level) :
    (generateMaze level).isSome = true ∧
      (3 < level → generateMaze level = generateMaze 3) := by
  constructor
  · obtain ⟨d, hd⟩ := generateMaze_pos_some h
    rw [hd]
    rfl
  · exact fun hh => generateMaze_clamp hh

theorem C9_generateMaze_clamped_witness :
    (generateMaze 5).isSome = true ∧
      (3 < (5 : ℤ) → generateMaze 5 = generateMaze 3) :=
  C9_generateMaze_clamped 5 (by norm_num)


/-- C8: a tick from a playing state with an empty held-key set and no food
overlapping the character leaves position, score, health and the active
food list unchanged. -/
theorem C8_tick_fixpoint (s : GameState) (hp : s.gameStatus = GameStatus.playing)
    (hk : s.keysPressed = ∅)
    (hf : ∀ f ∈ s.foods,
      checkCollision s.panda f.position PANDA_SIZE FOOD_SIZE = false) :
    (updateGame s).panda = s.panda ∧ (updateGame s).score = s.score ∧
      (updateGame s).health = s.health ∧ (updateGame s).foods = s.foods := by
  rw [updateGame_playing s hp]
  dsimp only
  rw [hk, movePanda_empty, eatFoods_no_hit _ _ _ _ _ hf]
  exact ⟨rfl, rfl, rfl, rfl⟩

theorem C8_tick_fixpoint_witness :
    (updateGame playState).panda = playState.panda ∧
      (updateGame playState).score = playState.score ∧
      (updateGame playState).health = playState.health ∧
      (updateGame playState).foods = playState.foods :=
  C8_tick_fixpoint playState rfl rfl (by decide)


/-- C5 (counterexample): the claim says a key-up event removes the key for
every game status; but in a menu-status state holding "w", processing
key-up "w" through the registered listener leaves the held set unchanged,
so the key is still held. -/
theorem C5_counterexample :
    keyUpState.gameStatus ≠ GameStatus.playing ∧
      (handleKeyUpWrapper "w" keyUpState).keysPressed = keyUpState.keysPressed ∧
      toLowerStr "w" ∈ (handleKeyUpWrapper "w" keyUpState).keysPressed := by
  exact ⟨by decide, by decide, by decide⟩

/-- C5 (amended): the inner `handleKeyUp` always removes the lowercased
key, but the registered wrapper invokes it only while the status is
`playing`; for any other status the held set is unchanged. -/
theorem C5_keyup_gated (key : String) (s : GameState) :
    (s.gameStatus = GameStatus.playing →
      (handleKeyUpWrapper key s).keysPressed = s.keysPressed.erase (toLowerStr key)) ∧
    (s.gameStatus ≠ GameStatus.playing →
      (handleKeyUpWrapper key s).keysPressed = s.keysPressed) ∧
    (handleKeyUp key s).keysPressed = s.keysPressed.erase (toLowerStr key) := by
  refine ⟨fun h => ?_, fun h => ?_, rfl⟩
  · rw [handleKeyUpWrapper, if_pos h]
    rfl
  · rw [handleKeyUpWrapper, if_neg h]

theorem C5_keyup_gated_witness :
    (handleKeyUpWrapper "W" playState).keysPressed =
      playState.keysPressed.erase (toLowerStr "W") :=
  (C5_keyup_gated "W" playState).1 rfl

/-- C2: for a tick from a reachable playing state, post-pickup health ≤ 0
forces `gameOver`; with positive health, reaching the end margin
(`x ≥ GAME_WIDTH - PANDA_SIZE - 10`) yields `levelComplete` when the
collected count equals the level total and `gameOver` otherwise. -/
theorem C2_terminal_conditions (s : GameState) (hr : Reachable s)
    (hp : s.gameStatus = GameStatus.playing) :
    ((updateGame s).health ≤ 0 → (updateGame s).gameStatus = GameStatus.gameOver) ∧
    (0 < (updateGame s).health →
      GAME_WIDTH - PANDA_SIZE - 10 ≤ (updateGame s).panda.x →
      ((updateGame s).goodFoodCollected = s.totalGoodFood →
        (updateGame s).gameStatus = GameStatus.levelComplete) ∧
      ((updateGame s).goodFoodCollected ≠ s.totalGoodFood →
        (updateGame s).gameStatus = GameStatus.gameOver)) := by
  have hinv := (reachable_inv s hr).2
  have hcg := eatFoods_collected_good (movePanda s.keysPressed s.walls s.panda)
    s.foods s.score s.health s.goodFoodCollected
  rw [updateGame_playing s hp]
  dsimp only
  constructor
  · intro hh
    rw [if_pos hh]
  · intro hh hx
    have hdec : decide (GAME_WIDTH - PANDA_SIZE - 10 ≤
        (movePanda s.keysPressed s.walls s.panda).x) = true := decide_eq_true hx
    rw [if_neg (by omega)]
    constructor
    · intro heq
      rw [if_pos ⟨hdec, heq⟩]
    · intro hne
      rw [if_neg (fun hcontra => hne hcontra.2), if_pos ⟨hdec, by omega⟩]

theorem C2_terminal_conditions_witness :
    ((updateGame startState).health ≤ 0 →
      (updateGame startState).gameStatus = GameStatus.gameOver) ∧
    (0 < (updateGame startState).health →
      GAME_WIDTH - PANDA_SIZE - 10 ≤ (updateGame startState).panda.x →
      ((updateGame startState).goodFoodCollected = startState.totalGoodFood →
        (updateGame startState).gameStatus = GameStatus.levelComplete) ∧
      ((updateGame startState).goodFoodCollected ≠ startState.totalGoodFood →
        (updateGame startState).gameStatus = GameStatus.gameOver)) :=
  C2_terminal_conditions startState reachable_startState (by decide)

/-- C7: starting (or restarting) resets score/health/level and installs the
generated level 1; `nextLevel` below the last level bumps the index and
regenerates while leaving score and health untouched; past the last
defined level it only switches the status to `gameWon`; `restartGame` is
exactly `startGame`. -/
theorem C7_session_transitions (s t : GameState) (hs : 1 ≤ s.level)
    (hsle : s.level + 1 ≤ (MAZE_LAYOUTS.length : ℤ))
    (ht : (MAZE_LAYOUTS.length : ℤ) < t.level + 1) :
    (∃ d, generateMaze 1 = some d ∧
      startGame s = some { s with score := 0, health := 100, level := 1,
                                  walls := d.walls, foods := d.foods,
                                  panda := d.startPos,
                                  gameStatus := GameStatus.playing,
                                  goodFoodCollected := 0,
                                  totalGoodFood := d.goodFoodCount,
                                  hasReachedEnd := false }) ∧
    (∃ d, generateMaze (s.level + 1) = some d ∧
      nextLevel s = some { s with level := s.level + 1,
                                  walls := d.walls, foods := d.foods,
                                  panda := d.startPos,
                                  gameStatus := GameStatus.playing,
                                  goodFoodCollected := 0,
                                  totalGoodFood := d.goodFoodCount,
                                  hasReachedEnd := false }) ∧
    nextLevel t = some { t with gameStatus := GameStatus.gameWon } ∧
    restartGame s = startGame s := by
  refine ⟨?_, ?_, ?_, rfl⟩
  · obtain ⟨d, hd⟩ := generateMaze_pos_some (by norm_num : (1 : ℤ) ≤ 1)
    refine ⟨d, hd, ?_⟩
    rw [startGame, initLevel, hd]
    rfl
  · obtain ⟨d, hd⟩ := generateMaze_pos_some (by omega : (1 : ℤ) ≤ s.level + 1)
    refine ⟨d, hd, ?_⟩
    rw [nextLevel, if_neg (by omega), initLevel, hd]
    rfl
  · rw [nextLevel, if_pos ht]


theorem C7_session_transitions_witness :
    nextLevel lastLevelState =
        some { lastLevelState with gameStatus := GameStatus.gameWon } ∧
      restartGame initialState = startGame initialState :=
  ⟨(C7_session_transitions initialState lastLevelState
      (by decide) (by decide) (by decide)).2.2.1,
   (C7_session_transitions initialState lastLevelState
      (by decide) (by decide) (by decide)).2.2.2⟩

/-- C4: for every designated item cell of every layout, a collectible with
the list's id and the cell's centre is placed iff the cell is open/start/
end; wall-cell designators produce nothing; and the returned good-food
count is the post-skip count of good items actually placed. -/
theorem C4_placement (m : MazeData) (hm : m ∈ MAZE_LAYOUTS) :
    (generateMazeData m).goodFoodCount = countGood (generateMazeData m).foods ∧
    (∀ p ∈ m.goodFoodPositions.enum,
      (isValidFoodPosition m.layout p.2.row p.2.col = true ↔
        ∃ f ∈ (generateMazeData m).foods,
          f.id = "good-food-" ++ toString p.1 ∧ f.type = FoodType.good ∧
          f.position =
            foodCellCenter (GAME_WIDTH / ((m.layout.headD "").length : ℚ))
              (GAME_HEIGHT / (m.layout.length : ℚ)) p.2)) ∧
    (∀ p ∈ m.badFoodPositions.enum,
      (isValidFoodPosition m.layout p.2.row p.2.col = true ↔
        ∃ f ∈ (generateMazeData m).foods,
          f.id = "bad-food-" ++ toString p.1 ∧ f.type = FoodType.bad ∧
          f.position =
            foodCellCenter (GAME_WIDTH / ((m.layout.headD "").length : ℚ))
              (GAME_HEIGHT / (m.layout.length : ℚ)) p.2)) := by
  rw [MAZE_LAYOUTS] at hm
  simp only [List.mem_cons, List.not_mem_nil, or_false] at hm
  rcases hm with rfl | rfl | rfl
  · exact ⟨rfl, by decide, by decide⟩
  · exact ⟨rfl, by decide, by decide⟩
  · exact ⟨rfl, by decide, by decide⟩


theorem C4_placement_witness :
    (generateMazeData layout1).goodFoodCount =
      countGood (generateMazeData layout1).foods :=
  (C4_placement layout1 (by decide)).1



/-- C1 (counterexample): from the reachable playing state `c1State`, one
more tick moves the panda to `y = 559/11 < 600/11`, inside the actual
rectangle of wall `wall-0-1`: the per-axis test uses the wall's width for
both extents, so the panda can enter the lower band of a wall cell. -/
theorem C1_counterexample :
    Reachable c1State ∧ c1State.gameStatus = GameStatus.playing ∧
      ∃ w ∈ c1State.walls, overlapsRect (updateGame c1State).panda PANDA_SIZE w := by
  refine ⟨?_, by decide, ?_⟩
  · exact Reachable.tick (Reachable.tick (Reachable.tick
      (Reachable.keyDown "w" reachable_startState)))
  · exact ⟨{ id := "wall-0-1", position := { x := 40, y := 0 },
             width := 40, height := 600 / 11 }, by decide, by decide, by decide,
           by decide, by decide⟩

/-- C1 (amended): what the tick actually guarantees is non-overlap with
each wall's width-by-width square (the collision test passes `wall.width`
as the size of both extents): if the character does not square-overlap any
wall, the position after a tick does not either. -/
theorem C1_no_square_overlap (s : GameState)
    (hp : s.gameStatus = GameStatus.playing)
    (hsafe : ∀ w ∈ s.walls,
      checkCollision s.panda w.position PANDA_SIZE w.width = false) :
    ∀ w ∈ (updateGame s).walls,
      checkCollision (updateGame s).panda w.position PANDA_SIZE w.width = false := by
  rw [updateGame_playing s hp]
  dsimp only
  exact movePanda_preserve _ _ _ hsafe

theorem C1_no_square_overlap_witness :
    checkCollision (updateGame startState).panda { x := 40, y := 0 }
      PANDA_SIZE 40 = false :=
  C1_no_square_overlap startState (by decide) (by decide)
    { id := "wall-0-1", position := { x := 40, y := 0 },
      width := 40, height := 600 / 11 } (by decide)
